import Mathlib

/-!
Verification of the behavior classification core of the RAT
(Rotational Angular Tracking) repository, file classifier.py.

Modelling conventions.

Keypoints are integer pixel coordinates, so a point is a pair of
integers.  The source computes Euclidean distances with a floating
point square root and only ever compares them against the positive
constant thresholds 50, 20, 5 and 30.  For integer inputs both the
squared distance and the square of the threshold are exactly
representable in float64, and the square root is strictly monotone, so
the source comparison sqrt d < c holds exactly when d < c * c.  The
embedding therefore carries squared distances (distSq, velocity_sq,
nose_tail_dist_sq) through the branching logic; the noncomputable
function _distance below is the actual Euclidean distance of the
source, and the lemma distance_lt_iff bridges the two views, so that
theorem statements can speak about the real distances the source
compares.

The head angle is atan2(dx, dy) converted to degrees and rounded to
one decimal place.  atan2 y x is modelled as the complex argument of
x + y * I, which agrees with the numpy convention on all inputs and
has range from minus pi exclusive to pi inclusive.  The rounded value
is an integer number of tenths of a degree, hence a rational number.
-/

abbrev Point : Type := ℤ × ℤ

abbrev Rect : Type := ℤ × ℤ × ℤ × ℤ

/-- Squared Euclidean distance between two integer points; the square of
the value computed by BehaviorClassifier._distance. -/
def distSq (p1 p2 : Point) : ℤ :=
  (p1.1 - p2.1) ^ 2 + (p1.2 - p2.2) ^ 2

/-- The Euclidean distance computed by BehaviorClassifier._distance,
as a real number. -/
noncomputable def _distance (p1 p2 : Point) : ℝ :=
  Real.sqrt ((((p1.1 - p2.1 : ℤ) : ℝ)) ^ 2 + (((p1.2 - p2.2 : ℤ) : ℝ)) ^ 2)

/-- Module constant VELOCITY_THRESHOLD = 5.0, squared. -/
def VELOCITY_THRESHOLD_SQ : ℤ := 25

/-- Module constant GROOMING_DISTANCE = 50.0, squared. -/
def GROOMING_DISTANCE_SQ : ℤ := 2500

/-- The ear spread threshold 20 of _is_grooming, squared. -/
def EAR_SPREAD_THRESHOLD_SQ : ℤ := 400

/-- Module constant SNIFFING_WALL_DISTANCE = 30.0.  It is only ever
compared against absolute differences of integer coordinates, so it
stays unsquared. -/
def SNIFFING_WALL_DISTANCE : ℤ := 30

/-- The keypoint dictionary: each body part is present or absent,
mirroring dict.get with a default in classify_full. -/
structure KeyPoints where
  nose : Option Point
  tail_base : Option Point
  left_ear : Option Point
  right_ear : Option Point

/-- nose = keypoints.get( ... , (0, 0)) in classify_full. -/
def KeyPoints.noseP (kp : KeyPoints) : Point := kp.nose.getD (0, 0)

/-- tail = keypoints.get( ... , (0, 0)) in classify_full. -/
def KeyPoints.tailP (kp : KeyPoints) : Point := kp.tail_base.getD (0, 0)

/-- left_ear = keypoints.get( ... , nose) in classify_full: a missing
left ear falls back to the nose position. -/
def KeyPoints.leftEarP (kp : KeyPoints) : Point := kp.left_ear.getD kp.noseP

/-- right_ear = keypoints.get( ... , nose) in classify_full: a missing
right ear falls back to the nose position. -/
def KeyPoints.rightEarP (kp : KeyPoints) : Point := kp.right_ear.getD kp.noseP

/-- The mutable state of a BehaviorClassifier instance: the previous
nose position (None before the first classified frame) and the
optional arena bounds set by set_arena. -/
structure ClassifierState where
  prev_nose : Option Point
  arena_bounds : Option Rect

/-- The record returned by classify_full.  head_angle is the rounded
angle in degrees, an integer number of tenths. -/
structure BehaviorResult where
  location : String
  attention : String
  head_angle : ℚ

/-- BehaviorClassifier._get_location_from_arena.  Divides the arena
into four horizontal bands of equal rational height; only the vertical
nose coordinate is inspected. -/
def _get_location_from_arena (arena_bounds : Option Rect) (nose : Point) : String :=
  match arena_bounds with
  | none => "Unknown"
  | some (_x1, y1, _x2, y2) =>
    let arena_height : ℚ := ((y2 : ℚ) - (y1 : ℚ))
    let zone_height : ℚ := arena_height / 4
    let relative_y : ℚ := ((nose.2 : ℚ) - (y1 : ℚ))
    if relative_y < 0 then "Top Stimulus"
    else if relative_y < zone_height then "Top Stimulus"
    else if relative_y < zone_height * 2 then "Adj to Top"
    else if relative_y < zone_height * 3 then "Adj to Bottom"
    else "Bottom Stimulus"

/-- BehaviorClassifier._get_location_from_frame: the same four band
logic against the frame height when no arena is calibrated. -/
def _get_location_from_frame (nose : Point) (frame_height : ℤ) : String :=
  let zone_height : ℚ := (frame_height : ℚ) / 4
  let nose_y : ℚ := (nose.2 : ℚ)
  if nose_y < zone_height then "Top Stimulus"
  else if nose_y < zone_height * 2 then "Adj to Top"
  else if nose_y < zone_height * 3 then "Adj to Bottom"
  else "Bottom Stimulus"

/-- BehaviorClassifier._is_grooming, on squared distances: grooming
holds when the nose to tail distance is below 50 with velocity below
5, or the ear spread is below 20 with velocity below 5. -/
def _is_grooming (nose_tail_dist_sq velocity_sq : ℤ)
    (left_ear right_ear : Point) : Bool :=
  if nose_tail_dist_sq < GROOMING_DISTANCE_SQ ∧ velocity_sq < VELOCITY_THRESHOLD_SQ then
    true
  else
    let ear_spread_sq := distSq left_ear right_ear
    if ear_spread_sq < EAR_SPREAD_THRESHOLD_SQ ∧ velocity_sq < VELOCITY_THRESHOLD_SQ then
      true
    else
      false

/-- BehaviorClassifier._is_near_arena_edge.  With no arena bounds the
source returns True unconditionally.  Otherwise the nose is near the
requested horizontal edge or either vertical wall, each within 30
pixels of absolute coordinate difference. -/
def _is_near_arena_edge (arena_bounds : Option Rect) (nose : Point)
    (edge : String) : Bool :=
  match arena_bounds with
  | none => true
  | some (x1, y1, x2, y2) =>
    if edge = "top" then
      decide (|nose.2 - y1| < SNIFFING_WALL_DISTANCE ∨
        |nose.1 - x1| < SNIFFING_WALL_DISTANCE ∨
        |nose.1 - x2| < SNIFFING_WALL_DISTANCE)
    else
      decide (|nose.2 - y2| < SNIFFING_WALL_DISTANCE ∨
        |nose.1 - x1| < SNIFFING_WALL_DISTANCE ∨
        |nose.1 - x2| < SNIFFING_WALL_DISTANCE)

/-- The wall proximity early return condition of
BehaviorClassifier._get_head_direction: in arena mode, the nose lies
within 30 pixels of the left or right arena wall.  False when no arena
is set. -/
def nearSideWall (arena_bounds : Option Rect) (nose : Point) : Bool :=
  match arena_bounds with
  | none => false
  | some (x1, _y1, x2, _y2) =>
    decide (|nose.1 - x1| < SNIFFING_WALL_DISTANCE ∨
      |nose.1 - x2| < SNIFFING_WALL_DISTANCE)

/-- BehaviorClassifier._get_head_direction.  The source also computes
an arena center x coordinate that it never uses; it is omitted here. -/
def _get_head_direction (arena_bounds : Option Rect) (head_angle : ℚ)
    (nose : Point) : String :=
  if nearSideWall arena_bounds nose then "Head Middle/Nothing"
  else if -45 ≤ head_angle ∧ head_angle ≤ 45 then "Head Top"
  else if 135 < head_angle ∨ head_angle < -135 then "Head Bottom"
  else "Head Middle/Nothing"

/-- BehaviorClassifier._get_attention: the priority ordered resolver.
In the source the two sniffing rules are nested ifs whose inner edge
test falls through when false; flattening them into conjunctions
preserves the control flow because the inner if has no else branch. -/
def _get_attention (arena_bounds : Option Rect) (nose _tail : Point)
    (left_ear right_ear : Point) (velocity_sq nose_tail_dist_sq : ℤ)
    (head_angle : ℚ) (location : String) : String :=
  if _is_grooming nose_tail_dist_sq velocity_sq left_ear right_ear then
    "Grooming"
  else if location = "Top Stimulus" ∧ velocity_sq < VELOCITY_THRESHOLD_SQ ∧
      _is_near_arena_edge arena_bounds nose "top" = true then
    "Sniffing Top"
  else if location = "Bottom Stimulus" ∧ velocity_sq < VELOCITY_THRESHOLD_SQ ∧
      _is_near_arena_edge arena_bounds nose "bottom" = true then
    "Sniffing Bottom"
  else
    _get_head_direction arena_bounds head_angle nose

/-- BehaviorClassifier._calculate_velocity, on squared distances.
Returns the squared velocity together with the new prev_nose field:
on the first call the velocity is 0 and the nose is stored; afterwards
the squared displacement from the stored position is returned and the
stored position is overwritten. -/
def _calculate_velocity (prev_nose : Option Point) (current_nose : Point) :
    ℤ × Option Point :=
  match prev_nose with
  | none => (0, some current_nose)
  | some p => (distSq current_nose p, some current_nose)

/-- Two argument arctangent: atan2 y x is the argument of the complex
number x + y * I, with range from minus pi exclusive to pi inclusive,
matching np.arctan2. -/
noncomputable def atan2 (y x : ℝ) : ℝ := Complex.arg (x + y * Complex.I)

/-- The head angle of BehaviorClassifier._calculate_head_angle before
rounding: np.degrees(np.arctan2(dx, dy)) with dx the nose x minus the
tail x and dy the tail y minus the nose y. -/
noncomputable def headAngleDeg (nose tail : Point) : ℝ :=
  atan2 (((nose.1 - tail.1 : ℤ) : ℝ)) (((tail.2 - nose.2 : ℤ) : ℝ)) * 180 / Real.pi

/-- BehaviorClassifier._calculate_head_angle: the degree angle rounded
to one decimal place, an integer number of tenths of a degree. -/
noncomputable def _calculate_head_angle (nose tail : Point) : ℚ :=
  ((round (headAngleDeg nose tail * 10) : ℤ) : ℚ) / 10

/-- BehaviorClassifier.classify_full, as a pure function from the
classifier state and the keypoint dictionary to the behavior result
and the successor state.  A truthy arena_bounds selects arena band
location, otherwise frame band location. -/
noncomputable def classify_full (st : ClassifierState) (keypoints : KeyPoints)
    (frame_height : ℤ) : BehaviorResult × ClassifierState :=
  let nose := keypoints.noseP
  let tail := keypoints.tailP
  let left_ear := keypoints.leftEarP
  let right_ear := keypoints.rightEarP
  let vres := _calculate_velocity st.prev_nose nose
  let nose_tail_dist_sq := distSq nose tail
  let head_angle := _calculate_head_angle nose tail
  let location :=
    match st.arena_bounds with
    | some _ => _get_location_from_arena st.arena_bounds nose
    | none => _get_location_from_frame nose frame_height
  let attention := _get_attention st.arena_bounds nose tail left_ear right_ear
    vres.1 nose_tail_dist_sq head_angle location
  (⟨location, attention, head_angle⟩, ⟨vres.2, st.arena_bounds⟩)

/-- BehaviorClassifier.set_arena. -/
def set_arena (st : ClassifierState) (bounds : Rect) : ClassifierState :=
  ⟨st.prev_nose, some bounds⟩

/-- BehaviorClassifier.classify_state: formats the full result; the
zone_a and zone_b arguments of the source are accepted and ignored. -/
noncomputable def classify_state (st : ClassifierState) (keypoints : KeyPoints)
    (_zone_a _zone_b : Option Rect) (frame_height : ℤ) : String × ClassifierState :=
  let r := classify_full st keypoints frame_height
  (r.1.location ++ " | " ++ r.1.attention, r.2)

/-! ## Bridge lemmas between real distances and squared distances -/

theorem distSq_cast_eq (p1 p2 : Point) :
    ((distSq p1 p2 : ℤ) : ℝ) =
      (((p1.1 - p2.1 : ℤ) : ℝ)) ^ 2 + (((p1.2 - p2.2 : ℤ) : ℝ)) ^ 2 := by
  push_cast [distSq]
  ring

theorem _distance_eq_sqrt_distSq (p1 p2 : Point) :
    _distance p1 p2 = Real.sqrt ((distSq p1 p2 : ℝ)) := by
  unfold _distance
  rw [distSq_cast_eq]

/-- The source comparison sqrt d < c is equivalent to the squared
comparison d < c squared, for a positive threshold c. -/
theorem distance_lt_iff (p1 p2 : Point) (c : ℝ) (hc : 0 < c) :
    _distance p1 p2 < c ↔ ((distSq p1 p2 : ℝ)) < c ^ 2 := by
  rw [_distance_eq_sqrt_distSq, Real.sqrt_lt' hc]

theorem _is_grooming_iff (ntSq vSq : ℤ) (lEar rEar : Point) :
    _is_grooming ntSq vSq lEar rEar = true ↔
      ((ntSq < GROOMING_DISTANCE_SQ ∧ vSq < VELOCITY_THRESHOLD_SQ) ∨
       (distSq lEar rEar < EAR_SPREAD_THRESHOLD_SQ ∧ vSq < VELOCITY_THRESHOLD_SQ)) := by
  simp only [_is_grooming]
  split_ifs <;> simp_all

/-! ## C1 -/

/-- C1: grooming has top priority in the attention resolver.  For every
classifier state, keypoint set and frame height, if the nose to tail
distance is below 50 pixels with velocity below 5 pixels per frame, or
the ear spread is below 20 pixels with velocity below 5 pixels per
frame, then classify_full returns the attention label Grooming,
regardless of arena calibration or zone membership; either
sub-condition alone suffices.  Velocity is the square root of the
squared displacement returned by _calculate_velocity. -/
theorem c1_grooming_priority (st : ClassifierState) (kp : KeyPoints)
    (frame_height : ℤ)
    (h : (_distance kp.noseP kp.tailP < 50 ∧
            Real.sqrt (((_calculate_velocity st.prev_nose kp.noseP).1 : ℝ)) < 5) ∨
         (_distance kp.leftEarP kp.rightEarP < 20 ∧
            Real.sqrt (((_calculate_velocity st.prev_nose kp.noseP).1 : ℝ)) < 5)) :
    (classify_full st kp frame_height).1.attention = "Grooming" := by
  have hg : _is_grooming (distSq kp.noseP kp.tailP)
      (_calculate_velocity st.prev_nose kp.noseP).1 kp.leftEarP kp.rightEarP = true := by
    rw [_is_grooming_iff]
    rcases h with ⟨h1, h2⟩ | ⟨h1, h2⟩
    · refine Or.inl ⟨?_, ?_⟩
      · have := (distance_lt_iff _ _ 50 (by norm_num)).mp h1
        norm_num at this
        unfold GROOMING_DISTANCE_SQ
        exact_mod_cast this
      · have := (Real.sqrt_lt' (by norm_num : (0:ℝ) < 5)).mp h2
        norm_num at this
        unfold VELOCITY_THRESHOLD_SQ
        exact_mod_cast this
    · refine Or.inr ⟨?_, ?_⟩
      · have := (distance_lt_iff _ _ 20 (by norm_num)).mp h1
        norm_num at this
        unfold EAR_SPREAD_THRESHOLD_SQ
        exact_mod_cast this
      · have := (Real.sqrt_lt' (by norm_num : (0:ℝ) < 5)).mp h2
        norm_num at this
        unfold VELOCITY_THRESHOLD_SQ
        exact_mod_cast this
  simp only [classify_full, _get_attention, hg, if_true]

/-- Witness for C1 at a concrete input: first frame, nose at the
origin, tail 10 pixels below, both ears present at the origin. -/
theorem c1_grooming_priority_witness :
    (classify_full ⟨none, none⟩
      ⟨some (0, 0), some (0, 10), some (0, 0), some (0, 0)⟩ 1080).1.attention =
      "Grooming" := by
  apply c1_grooming_priority
  left
  constructor
  · unfold _distance
    rw [Real.sqrt_lt' (by norm_num)]
    norm_num [KeyPoints.noseP, KeyPoints.tailP]
  · rw [Real.sqrt_lt' (by norm_num)]
    norm_num [_calculate_velocity, KeyPoints.noseP]

/-! ## C2 -/

/-- The band labelling map described by the specification: the floor
band index, with negative values clamped to the top band and values of
three or more falling into the bottom band. -/
def bandLabel (b : ℤ) : String :=
  if b ≤ 0 then "Top Stimulus"
  else if b = 1 then "Adj to Top"
  else if b = 2 then "Adj to Bottom"
  else "Bottom Stimulus"

/-- C2: arena mode zone banding.  With arena bounds calibrated and a
positive vertical span, the location label depends only on the nose
vertical coordinate and equals the band given by the floor of
4 * (nose y minus y1) / (y2 minus y1), with values below zero
mapped to Top Stimulus and values of four or more falling into Bottom
Stimulus; band boundaries are strict.  The horizontal coordinate x is
universally quantified and absent from the right hand side. -/
theorem c2_arena_banding (x1 y1 x2 y2 x y : ℤ) (hy : y1 < y2) :
    _get_location_from_arena (some (x1, y1, x2, y2)) (x, y) =
      bandLabel ⌊4 * ((y : ℚ) - (y1 : ℚ)) / ((y2 : ℚ) - (y1 : ℚ))⌋ := by
  have hH : (0 : ℚ) < (y2 : ℚ) - (y1 : ℚ) := by
    rw [sub_pos]
    exact_mod_cast hy
  simp only [_get_location_from_arena]
  split_ifs with h0 h1 h2 h3
  · have hq : 4 * ((y : ℚ) - (y1 : ℚ)) / ((y2 : ℚ) - (y1 : ℚ)) < 0 := by
      apply div_neg_of_neg_of_pos _ hH
      linarith
    have hfl := Int.floor_nonpos hq.le
    simp only [bandLabel]
    rw [if_pos hfl]
  · have hq0 : (0 : ℚ) ≤ 4 * ((y : ℚ) - (y1 : ℚ)) / ((y2 : ℚ) - (y1 : ℚ)) := by
      apply div_nonneg _ hH.le
      linarith
    have hq1 : 4 * ((y : ℚ) - (y1 : ℚ)) / ((y2 : ℚ) - (y1 : ℚ)) < 1 := by
      rw [div_lt_iff₀ hH]
      linarith
    have hfl : ⌊4 * ((y : ℚ) - (y1 : ℚ)) / ((y2 : ℚ) - (y1 : ℚ))⌋ = 0 := by
      rw [Int.floor_eq_iff]
      constructor
      · exact_mod_cast hq0
      · push_cast
        linarith
    rw [hfl]
    simp [bandLabel]
  · have hq1 : (1 : ℚ) ≤ 4 * ((y : ℚ) - (y1 : ℚ)) / ((y2 : ℚ) - (y1 : ℚ)) := by
      rw [le_div_iff₀ hH]
      linarith
    have hq2 : 4 * ((y : ℚ) - (y1 : ℚ)) / ((y2 : ℚ) - (y1 : ℚ)) < 2 := by
      rw [div_lt_iff₀ hH]
      linarith
    have hfl : ⌊4 * ((y : ℚ) - (y1 : ℚ)) / ((y2 : ℚ) - (y1 : ℚ))⌋ = 1 := by
      rw [Int.floor_eq_iff]
      constructor
      · exact_mod_cast hq1
      · push_cast
        linarith
    rw [hfl]
    simp [bandLabel]
  · have hq2 : (2 : ℚ) ≤ 4 * ((y : ℚ) - (y1 : ℚ)) / ((y2 : ℚ) - (y1 : ℚ)) := by
      rw [le_div_iff₀ hH]
      linarith
    have hq3 : 4 * ((y : ℚ) - (y1 : ℚ)) / ((y2 : ℚ) - (y1 : ℚ)) < 3 := by
      rw [div_lt_iff₀ hH]
      linarith
    have hfl : ⌊4 * ((y : ℚ) - (y1 : ℚ)) / ((y2 : ℚ) - (y1 : ℚ))⌋ = 2 := by
      rw [Int.floor_eq_iff]
      constructor
      · exact_mod_cast hq2
      · push_cast
        linarith
    rw [hfl]
    simp [bandLabel]
  · have hq3 : (3 : ℚ) ≤ 4 * ((y : ℚ) - (y1 : ℚ)) / ((y2 : ℚ) - (y1 : ℚ)) := by
      rw [le_div_iff₀ hH]
      linarith
    have hfl : 3 ≤ ⌊4 * ((y : ℚ) - (y1 : ℚ)) / ((y2 : ℚ) - (y1 : ℚ))⌋ :=
      Int.le_floor.mpr (by exact_mod_cast hq3)
    simp only [bandLabel]
    rw [if_neg (by omega), if_neg (by omega), if_neg (by omega)]

/-- Witness for C2 at the arena (0, 0, 100, 400) with the nose at
vertical coordinate 100, an exact band boundary: the band index is 1
and the label is Adj to Top, strictly below the boundary band. -/
theorem c2_arena_banding_witness :
    (0 : ℤ) < 400 ∧
    _get_location_from_arena (some (0, 0, 100, 400)) (7, 100) =
      bandLabel ⌊4 * ((100 : ℚ) - (0 : ℚ)) / ((400 : ℚ) - (0 : ℚ))⌋ ∧
    _get_location_from_arena (some (0, 0, 100, 400)) (7, 100) = "Adj to Top" := by
  refine ⟨by decide, c2_arena_banding 0 0 100 400 7 100 (by decide), ?_⟩
  norm_num [_get_location_from_arena]

/-! ## C3 -/

theorem _is_near_arena_edge_top_iff (ax1 ay1 ax2 ay2 : ℤ) (nose : Point) :
    _is_near_arena_edge (some (ax1, ay1, ax2, ay2)) nose "top" = true ↔
      (|nose.2 - ay1| < 30 ∨ |nose.1 - ax1| < 30 ∨ |nose.1 - ax2| < 30) := by
  simp [_is_near_arena_edge, SNIFFING_WALL_DISTANCE]

theorem _is_near_arena_edge_bottom_iff (ax1 ay1 ax2 ay2 : ℤ) (nose : Point) :
    _is_near_arena_edge (some (ax1, ay1, ax2, ay2)) nose "bottom" = true ↔
      (|nose.2 - ay2| < 30 ∨ |nose.1 - ax1| < 30 ∨ |nose.1 - ax2| < 30) := by
  simp [_is_near_arena_edge, SNIFFING_WALL_DISTANCE]

theorem _get_head_direction_ne_sniffing (a : Option Rect) (angle : ℚ) (b : Point) :
    _get_head_direction a angle b ≠ "Sniffing Top" ∧
      _get_head_direction a angle b ≠ "Sniffing Bottom" := by
  unfold _get_head_direction
  split_ifs <;> simp

/-- C3: sniffing rules.  When grooming does not apply and an arena is
calibrated, the attention label is Sniffing Top exactly when the
location is Top Stimulus, the velocity is below 5 pixels per frame
(squared velocity below 25), and the nose lies within 30 pixels of the
top, left or right arena edge in absolute pixel distance; and
symmetrically Sniffing Bottom exactly for Bottom Stimulus with the
bottom, left or right edge. -/
theorem c3_sniffing_characterization (ax1 ay1 ax2 ay2 : ℤ)
    (nose tail lEar rEar : Point) (vSq ntSq : ℤ) (angle : ℚ) (location : String)
    (hg : _is_grooming ntSq vSq lEar rEar = false) :
    (_get_attention (some (ax1, ay1, ax2, ay2)) nose tail lEar rEar vSq ntSq
        angle location = "Sniffing Top" ↔
      (location = "Top Stimulus" ∧ vSq < 25 ∧
        (|nose.2 - ay1| < 30 ∨ |nose.1 - ax1| < 30 ∨ |nose.1 - ax2| < 30))) ∧
    (_get_attention (some (ax1, ay1, ax2, ay2)) nose tail lEar rEar vSq ntSq
        angle location = "Sniffing Bottom" ↔
      (location = "Bottom Stimulus" ∧ vSq < 25 ∧
        (|nose.2 - ay2| < 30 ∨ |nose.1 - ax1| < 30 ∨ |nose.1 - ax2| < 30))) := by
  have hTopIff := _is_near_arena_edge_top_iff ax1 ay1 ax2 ay2 nose
  have hBotIff := _is_near_arena_edge_bottom_iff ax1 ay1 ax2 ay2 nose
  have hhd := _get_head_direction_ne_sniffing (some (ax1, ay1, ax2, ay2)) angle nose
  simp only [_get_attention, hg, Bool.false_eq_true, if_false, VELOCITY_THRESHOLD_SQ]
  constructor
  · split_ifs with h1 h2
    · exact iff_of_true rfl ⟨h1.1, h1.2.1, hTopIff.mp h1.2.2⟩
    · refine iff_of_false (by decide) ?_
      rintro ⟨hl, -, -⟩
      rw [hl] at h2
      exact absurd h2.1 (by decide)
    · refine iff_of_false hhd.1 ?_
      rintro ⟨hl, hv, he⟩
      exact h1 ⟨hl, hv, hTopIff.mpr he⟩
  · split_ifs with h1 h2
    · refine iff_of_false (by decide) ?_
      rintro ⟨hl, -, -⟩
      rw [hl] at h1
      exact absurd h1.1 (by decide)
    · exact iff_of_true rfl ⟨h2.1, h2.2.1, hBotIff.mp h2.2.2⟩
    · refine iff_of_false hhd.2 ?_
      rintro ⟨hl, hv, he⟩
      exact h2 ⟨hl, hv, hBotIff.mpr he⟩

/-- Witness for C3: arena (0, 0, 100, 400), nose at (50, 10), still
animal, nose and tail far apart, ears spread wide: both equivalences
are checked at this input, the top one with both sides true. -/
theorem c3_sniffing_characterization_witness :
    _is_grooming 10000 0 (0, 0) (30, 0) = false ∧
    ((_get_attention (some (0, 0, 100, 400)) (50, 10) (150, 10) (0, 0) (30, 0)
        0 10000 0 "Top Stimulus" = "Sniffing Top" ↔
      ("Top Stimulus" = "Top Stimulus" ∧ (0 : ℤ) < 25 ∧
        (|(10 : ℤ) - 0| < 30 ∨ |(50 : ℤ) - 0| < 30 ∨ |(50 : ℤ) - 100| < 30))) ∧
     (_get_attention (some (0, 0, 100, 400)) (50, 10) (150, 10) (0, 0) (30, 0)
        0 10000 0 "Top Stimulus" = "Sniffing Bottom" ↔
      ("Top Stimulus" = "Bottom Stimulus" ∧ (0 : ℤ) < 25 ∧
        (|(10 : ℤ) - 400| < 30 ∨ |(50 : ℤ) - 0| < 30 ∨ |(50 : ℤ) - 100| < 30)))) :=
  ⟨by decide,
   c3_sniffing_characterization 0 0 100 400 (50, 10) (150, 10) (0, 0) (30, 0)
     0 10000 0 "Top Stimulus" (by decide)⟩

/-! ## C4 -/

/-- C4: head direction fallback.  When neither grooming nor a sniffing
rule fires, the attention label is Head Top exactly when the nose is
not within 30 pixels of a side wall and the head angle lies in the
closed interval from -45 to 45 degrees; Head Bottom exactly when the
nose is not within 30 pixels of a side wall and the angle is above 135
or below -135; whenever the nose is within 30 pixels of the left or
right arena edge the label is Head Middle/Nothing for every head
angle; and otherwise, away from the side walls with the angle outside
both cones, the label is Head Middle/Nothing as well. -/
theorem c4_head_direction_fallback (arena_bounds : Option Rect)
    (nose tail lEar rEar : Point) (vSq ntSq : ℤ) (angle : ℚ) (location : String)
    (hg : _is_grooming ntSq vSq lEar rEar = false)
    (hTop : ¬(location = "Top Stimulus" ∧ vSq < VELOCITY_THRESHOLD_SQ ∧
        _is_near_arena_edge arena_bounds nose "top" = true))
    (hBot : ¬(location = "Bottom Stimulus" ∧ vSq < VELOCITY_THRESHOLD_SQ ∧
        _is_near_arena_edge arena_bounds nose "bottom" = true)) :
    (_get_attention arena_bounds nose tail lEar rEar vSq ntSq angle location =
        "Head Top" ↔
      (nearSideWall arena_bounds nose = false ∧ -45 ≤ angle ∧ angle ≤ 45)) ∧
    (_get_attention arena_bounds nose tail lEar rEar vSq ntSq angle location =
        "Head Bottom" ↔
      (nearSideWall arena_bounds nose = false ∧ (135 < angle ∨ angle < -135))) ∧
    (nearSideWall arena_bounds nose = true →
      _get_attention arena_bounds nose tail lEar rEar vSq ntSq angle location =
        "Head Middle/Nothing") ∧
    (nearSideWall arena_bounds nose = false ∧ ¬(-45 ≤ angle ∧ angle ≤ 45) ∧
        ¬(135 < angle ∨ angle < -135) →
      _get_attention arena_bounds nose tail lEar rEar vSq ntSq angle location =
        "Head Middle/Nothing") := by
  simp only [_get_attention, hg, Bool.false_eq_true, if_false, if_neg hTop, if_neg hBot]
  unfold _get_head_direction
  by_cases hw : nearSideWall arena_bounds nose = true
  · rw [if_pos hw]
    refine ⟨?_, ?_, fun _ => rfl, fun _ => rfl⟩
    · refine iff_of_false (by decide) ?_
      rintro ⟨hf, -⟩
      rw [hw] at hf
      exact absurd hf (by decide)
    · refine iff_of_false (by decide) ?_
      rintro ⟨hf, -⟩
      rw [hw] at hf
      exact absurd hf (by decide)
  · have hw' : nearSideWall arena_bounds nose = false := by
      revert hw
      cases nearSideWall arena_bounds nose <;> simp
    rw [if_neg hw]
    split_ifs with hc1 hc2
    · refine ⟨iff_of_true rfl ⟨hw', hc1.1, hc1.2⟩, iff_of_false (by decide) ?_, ?_, ?_⟩
      · rintro ⟨-, h⟩
        rcases h with h | h
        · linarith [hc1.2]
        · linarith [hc1.1]
      · intro hcontra
        rw [hw'] at hcontra
        exact absurd hcontra (by decide)
      · rintro ⟨-, hn1, -⟩
        exact absurd hc1 hn1
    · refine ⟨iff_of_false (by decide) ?_, iff_of_true rfl ⟨hw', hc2⟩, ?_, ?_⟩
      · rintro ⟨-, h⟩
        exact hc1 h
      · intro hcontra
        rw [hw'] at hcontra
        exact absurd hcontra (by decide)
      · rintro ⟨-, -, hn2⟩
        exact absurd hc2 hn2
    · refine ⟨iff_of_false (by decide) ?_, iff_of_false (by decide) ?_,
        fun _ => rfl, fun _ => rfl⟩
      · rintro ⟨-, h⟩
        exact hc1 h
      · rintro ⟨-, h⟩
        exact hc2 h

/-- Witness for C4: no arena, nose far from everything, location a
middle band, still animal, wide ears, angle 0 degrees. -/
theorem c4_head_direction_fallback_witness :
    (_get_attention none (5, 5) (9, 9) (0, 0) (30, 0) 0 10000 0 "Adj to Top" =
        "Head Top" ↔
      (nearSideWall none (5, 5) = false ∧ -45 ≤ (0 : ℚ) ∧ (0 : ℚ) ≤ 45)) ∧
    (_get_attention none (5, 5) (9, 9) (0, 0) (30, 0) 0 10000 0 "Adj to Top" =
        "Head Bottom" ↔
      (nearSideWall none (5, 5) = false ∧ (135 < (0 : ℚ) ∨ (0 : ℚ) < -135))) ∧
    (nearSideWall none (5, 5) = true →
      _get_attention none (5, 5) (9, 9) (0, 0) (30, 0) 0 10000 0 "Adj to Top" =
        "Head Middle/Nothing") ∧
    (nearSideWall none (5, 5) = false ∧ ¬(-45 ≤ (0 : ℚ) ∧ (0 : ℚ) ≤ 45) ∧
        ¬(135 < (0 : ℚ) ∨ (0 : ℚ) < -135) →
      _get_attention none (5, 5) (9, 9) (0, 0) (30, 0) 0 10000 0 "Adj to Top" =
        "Head Middle/Nothing") :=
  c4_head_direction_fallback none (5, 5) (9, 9) (0, 0) (30, 0) 0 10000 0
    "Adj to Top" (by decide) (by decide) (by decide)

/-! ## C5 -/

/-- C5: the velocity tracker.  The first call returns velocity exactly
0 and stores the current nose; every later call returns the Euclidean
distance between the current nose and the stored one and overwrites
the stored position; and the concrete pair (100, 100) then (103, 104)
gives velocity exactly 5 on the second call.  The real velocity is the
square root of the squared displacement carried by the embedding. -/
theorem c5_velocity_tracker (nose p : Point) :
    _calculate_velocity none nose = (0, some nose) ∧
    (Real.sqrt (((_calculate_velocity (some p) nose).1 : ℝ)) = _distance nose p ∧
      (_calculate_velocity (some p) nose).2 = some nose) ∧
    Real.sqrt (((_calculate_velocity (some (100, 100)) (103, 104)).1 : ℝ)) = 5 := by
  refine ⟨rfl, ⟨?_, rfl⟩, ?_⟩
  · rw [_distance_eq_sqrt_distSq]
    rfl
  · have h25 : ((_calculate_velocity (some (100, 100)) (103, 104)).1 : ℝ) = 25 := by
      norm_num [_calculate_velocity, distSq]
    rw [h25, show (25 : ℝ) = 5 ^ 2 by norm_num, Real.sqrt_sq (by norm_num)]

/-! ## C6 -/

theorem atan2_of_nonneg_x (x : ℝ) (hx : 0 ≤ x) : atan2 0 x = 0 := by
  unfold atan2
  rw [Complex.ofReal_zero, zero_mul, add_zero]
  exact Complex.arg_ofReal_of_nonneg hx

theorem atan2_of_pos_y (y : ℝ) (hy : 0 < y) : atan2 y 0 = Real.pi / 2 := by
  unfold atan2
  rw [Complex.ofReal_zero, zero_add, Complex.arg_real_mul Complex.I hy, Complex.arg_I]

theorem atan2_of_neg_y (y : ℝ) (hy : y < 0) : atan2 y 0 = -(Real.pi / 2) := by
  unfold atan2
  rw [Complex.ofReal_zero, zero_add]
  have hrw : (y : ℂ) * Complex.I = ((-y : ℝ) : ℂ) * (-Complex.I) := by
    push_cast
    ring
  rw [hrw, Complex.arg_real_mul (-Complex.I) (by linarith : (0 : ℝ) < -y),
    Complex.arg_neg_I]

/-- C6: the head angle is atan2(dx, dy) with dx the nose x minus the
tail x and dy the tail y minus the nose y, converted to degrees with
range from -180 exclusive to 180 inclusive and rounded to one decimal
place.  A nose directly above the tail gives 0 degrees, a nose
directly right of the tail at the same height gives +90 degrees, and
directly left gives -90 degrees. -/
theorem c6_head_angle (nose tail : Point) (tx y d : ℤ) :
    (-180 < headAngleDeg nose tail ∧ headAngleDeg nose tail ≤ 180) ∧
    _calculate_head_angle (50, 0) (50, 100) = 0 ∧
    (0 < d → _calculate_head_angle (tx + d, y) (tx, y) = 90) ∧
    (d < 0 → _calculate_head_angle (tx + d, y) (tx, y) = -90) := by
  have hpi := Real.pi_pos
  refine ⟨⟨?_, ?_⟩, ?_, ?_, ?_⟩
  · have h1 := Complex.neg_pi_lt_arg
      ((((nose.1 - tail.1 : ℤ) : ℝ) : ℂ) * Complex.I + (((tail.2 - nose.2 : ℤ) : ℝ) : ℂ))
    unfold headAngleDeg atan2
    rw [lt_div_iff₀ hpi]
    have h1 := Complex.neg_pi_lt_arg
      ((((tail.2 - nose.2 : ℤ) : ℝ) : ℂ) + (((nose.1 - tail.1 : ℤ) : ℝ) : ℂ) * Complex.I)
    linarith
  · have h2 := Complex.arg_le_pi
      ((((tail.2 - nose.2 : ℤ) : ℝ) : ℂ) + (((nose.1 - tail.1 : ℤ) : ℝ) : ℂ) * Complex.I)
    unfold headAngleDeg atan2
    rw [div_le_iff₀ hpi]
    linarith
  · have hdeg : headAngleDeg (50, 0) (50, 100) = 0 := by
      unfold headAngleDeg
      norm_num
      rw [atan2_of_nonneg_x 100 (by norm_num)]
      simp
    unfold _calculate_head_angle
    rw [hdeg]
    norm_num
  · intro hd
    have hdeg : headAngleDeg (tx + d, y) (tx, y) = 90 := by
      unfold headAngleDeg
      have hx : ((tx + d - tx : ℤ) : ℝ) = (d : ℝ) := by
        push_cast
        ring
      have hy0 : ((y - y : ℤ) : ℝ) = 0 := by
        push_cast
        ring
      rw [hx, hy0, atan2_of_pos_y (d : ℝ) (by exact_mod_cast hd)]
      rw [div_eq_iff (ne_of_gt hpi)]
      ring
    unfold _calculate_head_angle
    rw [hdeg, show (90 : ℝ) * 10 = ((900 : ℤ) : ℝ) by norm_num, round_intCast]
    norm_num
  · intro hd
    have hdeg : headAngleDeg (tx + d, y) (tx, y) = -90 := by
      unfold headAngleDeg
      have hx : ((tx + d - tx : ℤ) : ℝ) = (d : ℝ) := by
        push_cast
        ring
      have hy0 : ((y - y : ℤ) : ℝ) = 0 := by
        push_cast
        ring
      rw [hx, hy0, atan2_of_neg_y (d : ℝ) (by exact_mod_cast hd)]
      rw [neg_mul, neg_div, neg_eq_iff_eq_neg, neg_neg]
      rw [div_eq_iff (ne_of_gt hpi)]
      ring
    unfold _calculate_head_angle
    rw [hdeg, show (-90 : ℝ) * 10 = ((-900 : ℤ) : ℝ) by norm_num, round_intCast]
    norm_num

/-- Witness for C6: a nose 7 pixels right of the tail gives +90
degrees and 7 pixels left gives -90 degrees. -/
theorem c6_head_angle_witness :
    _calculate_head_angle (3 + 7, 5) (3, 5) = 90 ∧
    _calculate_head_angle (3 + -7, 5) (3, 5) = -90 :=
  ⟨(c6_head_angle (0, 0) (0, 1) 3 5 7).2.2.1 (by norm_num),
   (c6_head_angle (0, 0) (0, 1) 3 5 (-7)).2.2.2 (by norm_num)⟩

/-! ## C7 -/

/-- Counterexample to C7 as stated: with an arena, a nose in the Top
Stimulus band at the arena center, velocity exactly at the threshold
(squared velocity 25, so the sniffing rule cannot fire), grooming not
applicable, and a head angle of 180 degrees, the resolver returns Head
Bottom, not Head Top. -/
theorem c7_counterexample :
    _is_grooming 10000 25 (0, 0) (30, 0) = false ∧
    _get_attention (some (0, 0, 100, 400)) (50, 200) (50, 300) (0, 0) (30, 0)
      25 10000 180 "Top Stimulus" ≠ "Head Top" ∧
    _get_attention (some (0, 0, 100, 400)) (50, 200) (50, 300) (0, 0) (30, 0)
      25 10000 180 "Top Stimulus" = "Head Bottom" := by
  decide

/-- C7 amended: whenever grooming does not apply and the location is
Top Stimulus but the velocity is at or above 5 pixels per frame, or
the velocity is below the threshold but the nose is not near an arena
edge, the attention label equals the head direction fallback (which
returns Head Top only when the nose is away from the side walls and
the head angle lies in the -45 to 45 degree cone). -/
theorem c7_amended_fallthrough (arena_bounds : Option Rect)
    (nose tail lEar rEar : Point) (vSq ntSq : ℤ) (angle : ℚ)
    (hg : _is_grooming ntSq vSq lEar rEar = false)
    (hv : VELOCITY_THRESHOLD_SQ ≤ vSq ∨
      _is_near_arena_edge arena_bounds nose "top" = false) :
    _get_attention arena_bounds nose tail lEar rEar vSq ntSq angle "Top Stimulus" =
      _get_head_direction arena_bounds angle nose := by
  have h1 : ¬(("Top Stimulus" : String) = "Top Stimulus" ∧
      vSq < VELOCITY_THRESHOLD_SQ ∧
      _is_near_arena_edge arena_bounds nose "top" = true) := by
    rintro ⟨-, hvlt, hedge⟩
    rcases hv with hv | hv
    · exact absurd hvlt (not_lt.mpr hv)
    · rw [hv] at hedge
      exact absurd hedge (by decide)
  have h2 : ¬(("Top Stimulus" : String) = "Bottom Stimulus" ∧
      vSq < VELOCITY_THRESHOLD_SQ ∧
      _is_near_arena_edge arena_bounds nose "bottom" = true) := by
    rintro ⟨h, -⟩
    exact absurd h (by decide)
  unfold _get_attention
  rw [hg, if_neg (show ¬((false : Bool) = true) by decide), if_neg h1, if_neg h2]

/-- Witness for the amended C7 at the counterexample input. -/
theorem c7_amended_fallthrough_witness :
    _get_attention (some (0, 0, 100, 400)) (50, 200) (50, 300) (0, 0) (30, 0)
      25 10000 180 "Top Stimulus" =
      _get_head_direction (some (0, 0, 100, 400)) 180 (50, 200) :=
  c7_amended_fallthrough (some (0, 0, 100, 400)) (50, 200) (50, 300) (0, 0)
    (30, 0) 25 10000 180 (by decide) (Or.inl (by decide))

/-! ## C8 -/

/-- Counterexample to C8 as stated: with no arena set (and no zone
rectangles, which classify_full never consults), a stationary animal
with its nose in the top quarter of the frame is labelled Sniffing
Top: the location falls back to frame bands and the edge proximity
check trivially passes, so a sniffing label is reachable while
uncalibrated, contradicting the claim that classification always falls
through to the head direction rule. -/
theorem c8_counterexample :
    (classify_full ⟨none, none⟩
      ⟨some (0, 0), some (100, 0), some (0, 0), some (25, 0)⟩ 1080).1.attention =
      "Sniffing Top" := by
  have hloc : _get_location_from_frame (0, 0) 1080 = "Top Stimulus" := by
    norm_num [_get_location_from_frame]
  simp only [classify_full, KeyPoints.noseP, KeyPoints.tailP, KeyPoints.leftEarP,
    KeyPoints.rightEarP, Option.getD, _calculate_velocity, hloc]
  norm_num [_get_attention, _is_grooming, _is_near_arena_edge, distSq,
    GROOMING_DISTANCE_SQ, EAR_SPREAD_THRESHOLD_SQ, VELOCITY_THRESHOLD_SQ]

/-- C8 amended: with no arena calibrated, the location is computed
from frame relative four band logic, the edge proximity check passes
trivially, and the attention label follows grooming, then sniffing for
a slow animal in the top or bottom frame band, then the head angle
cones with no side wall override. -/
theorem c8_amended_uncalibrated (prev : Option Point) (kp : KeyPoints) (fh : ℤ) :
    (classify_full ⟨prev, none⟩ kp fh).1.attention =
      (if _is_grooming (distSq kp.noseP kp.tailP)
          (_calculate_velocity prev kp.noseP).1 kp.leftEarP kp.rightEarP then
        "Grooming"
       else if _get_location_from_frame kp.noseP fh = "Top Stimulus" ∧
          (_calculate_velocity prev kp.noseP).1 < VELOCITY_THRESHOLD_SQ then
        "Sniffing Top"
       else if _get_location_from_frame kp.noseP fh = "Bottom Stimulus" ∧
          (_calculate_velocity prev kp.noseP).1 < VELOCITY_THRESHOLD_SQ then
        "Sniffing Bottom"
       else if -45 ≤ _calculate_head_angle kp.noseP kp.tailP ∧
          _calculate_head_angle kp.noseP kp.tailP ≤ 45 then
        "Head Top"
       else if 135 < _calculate_head_angle kp.noseP kp.tailP ∨
          _calculate_head_angle kp.noseP kp.tailP < -135 then
        "Head Bottom"
       else "Head Middle/Nothing") := by
  simp only [classify_full, _get_attention, _get_head_direction, _is_near_arena_edge,
    nearSideWall, Bool.false_eq_true, if_false, and_true, if_true]

/-! ## C9 -/

/-- C9: frame effect of classification.  classify_full leaves the
arena bounds unchanged and its only state mutation is the previous
nose position, which afterwards equals the nose of the current
frame. -/
theorem c9_frame_effect (st : ClassifierState) (kp : KeyPoints) (fh : ℤ) :
    (classify_full st kp fh).2.arena_bounds = st.arena_bounds ∧
    (classify_full st kp fh).2.prev_nose = some kp.noseP := by
  unfold classify_full _calculate_velocity
  cases hp : st.prev_nose <;> simp [hp]

/-! ## C10 -/

/-- C10: missing ear grooming dominance.  When the keypoint mapping
lacks both ears, classify_full substitutes the nose for both ear
positions, making the ear spread exactly 0, which is below the
threshold 20; hence whenever the velocity is below 5 pixels per frame,
and in particular always on a first frame where the stored previous
nose is absent, the attention label is Grooming, regardless of nose to
tail distance, location or head angle. -/
theorem c10_missing_ears_grooming (st : ClassifierState) (kp : KeyPoints) (fh : ℤ)
    (hl : kp.left_ear = none) (hr : kp.right_ear = none)
    (hv : st.prev_nose = none ∨
      (_calculate_velocity st.prev_nose kp.noseP).1 < VELOCITY_THRESHOLD_SQ) :
    (classify_full st kp fh).1.attention = "Grooming" := by
  have hle : kp.leftEarP = kp.noseP := by
    simp [KeyPoints.leftEarP, hl]
  have hre : kp.rightEarP = kp.noseP := by
    simp [KeyPoints.rightEarP, hr]
  have hvSq : (_calculate_velocity st.prev_nose kp.noseP).1 < VELOCITY_THRESHOLD_SQ := by
    rcases hv with hv | hv
    · rw [hv]
      norm_num [_calculate_velocity, VELOCITY_THRESHOLD_SQ]
    · exact hv
  have hg : _is_grooming (distSq kp.noseP kp.tailP)
      (_calculate_velocity st.prev_nose kp.noseP).1 kp.leftEarP kp.rightEarP = true := by
    rw [_is_grooming_iff]
    refine Or.inr ⟨?_, hvSq⟩
    rw [hle, hre]
    norm_num [distSq, EAR_SPREAD_THRESHOLD_SQ]
  simp only [classify_full, _get_attention, hg, if_true]

/-- Witness for C10: first frame, no ears supplied, nose and tail 200
pixels apart, nose in the middle of the frame. -/
theorem c10_missing_ears_grooming_witness :
    (classify_full ⟨none, none⟩ ⟨some (0, 500), some (200, 500), none, none⟩
      1080).1.attention = "Grooming" :=
  c10_missing_ears_grooming ⟨none, none⟩
    ⟨some (0, 500), some (200, 500), none, none⟩ 1080 rfl rfl (Or.inl rfl)
